import Mathlib

/-!
Shallow embedding of `telegram/ext/_callbackcontext.py` (the `CallbackContext`
class of a Telegram bot framework) together with the external collaborators it
touches (the Application's shared data stores, the optional persistence
backend, the bot client and its callback-data cache).

Conventions of the embedding:
* Python exceptions become an explicit error type `PTBError`; the spec-level
  names map onto the Python classes as follows: `invalidOperation` is the
  `AttributeError` raised by the read-only property setters, `capabilityError`
  is the `RuntimeError` raised by `drop_callback_data`, and `notFoundError` is
  the `KeyError` raised when a callback query is missing from the cache.
* Fallible operations return `Except PTBError _`.
* `await`ed persistence hooks are modelled by returning the list of hook
  invocations that `refresh_data` performs, in the order it performs them.
* The Application's `chat_data` / `user_data` stores are `defaultdict`s
  (create-if-absent), so a lookup always yields a handle; they are modelled as
  total functions from ids.
* Python attribute assignment (`setattr`, used by `CallbackContext.update`)
  dispatches on the attribute name: slot attributes are written directly,
  property setters run (and here always raise), unknown names go to the
  instance `__dict__`. This dispatch is modelled by the inductive `Attr`.
-/

namespace PTB

/-- Errors raised by `CallbackContext` methods. `invalidOperation` stands for
Python `AttributeError`, `capabilityError` for `RuntimeError`, `notFoundError`
for `KeyError`. -/
inductive PTBError where
  | invalidOperation : String → PTBError
  | capabilityError : String → PTBError
  | notFoundError : String → PTBError
  deriving DecidableEq

/-- True exactly on the `invalidOperation` kind. -/
def PTBError.isInvalidOperation : PTBError → Bool
  | .invalidOperation _ => true
  | _ => false

/-- True exactly on the `capabilityError` kind. -/
def PTBError.isCapabilityError : PTBError → Bool
  | .capabilityError _ => true
  | _ => false

/-- True exactly on the `notFoundError` kind. -/
def PTBError.isNotFoundError : PTBError → Bool
  | .notFoundError _ => true
  | _ => false

/-- The `_STORING_DATA_WIKI` URL interpolated into the setter error messages. -/
def _STORING_DATA_WIKI : String :=
  "https://github.com/python-telegram-bot/python-telegram-bot/wiki/Storing-bot%2C-user-and-chat-related-data"

/-- Association-list lookup by key (first match), modelling a dict lookup. -/
def lookupAssoc {α : Type} : List (String × α) → String → Option α
  | [], _ => none
  | (k', v') :: rest, k => if k' = k then some v' else lookupAssoc rest k

/-- Association-list deletion by key, modelling a dict `pop`. -/
def removeAssoc {α : Type} : List (String × α) → String → List (String × α)
  | [], _ => []
  | (k', v') :: rest, k =>
    if k' = k then removeAssoc rest k else (k', v') :: removeAssoc rest k

/-- Association-list insertion/overwrite, modelling `d[k] = v`. -/
def setAssoc {α : Type} : List (String × α) → String → α → List (String × α)
  | [], k, v => [(k, v)]
  | (k', v') :: rest, k, v =>
    if k' = k then (k, v) :: rest else (k', v') :: setAssoc rest k v

/-- A `telegram.CallbackQuery`: only the identifying token (`id`) matters to
`drop_callback_data`. -/
structure CallbackQuery where
  id : String
  deriving DecidableEq

/-- Modelled from the spec: the bot client's callback-data cache, with a
*query* index (callback-query token to keyboard uuid) and a *data* index
(keyboard uuid to cached payload); its `drop_data` operation is not part of
this repository's sources. -/
structure CallbackDataCache where
  callback_queries : List (String × String)
  keyboard_data : List (String × String)
  deriving DecidableEq

/-- Modelled from the spec: `drop_data` pops the callback query's token from
the *query* index, failing with a not-found error (`KeyError`) when the token
is absent there; on success it also drops the keyboard's payload from the
*data* index, which may legitimately have no entry and is silently ignored. -/
def CallbackDataCache.drop_data (cache : CallbackDataCache)
    (callback_query : CallbackQuery) : Except PTBError CallbackDataCache :=
  match lookupAssoc cache.callback_queries callback_query.id with
  | none => Except.error (PTBError.notFoundError "CallbackQuery was not found in cache.")
  | some keyboard_uuid =>
    Except.ok
      { callback_queries := removeAssoc cache.callback_queries callback_query.id
        keyboard_data := removeAssoc cache.keyboard_data keyboard_uuid }

/-- The bot client: either a plain `telegram.Bot`, or a `telegram.ext.ExtBot`
carrying its `arbitrary_callback_data` flag and its `callback_data_cache`. -/
inductive Bot where
  | bot
  | extBot (arbitrary_callback_data : Bool) (callback_data_cache : CallbackDataCache)
  deriving DecidableEq

/-- A `telegram.Chat`, reduced to its id. -/
structure Chat where
  id : Int
  deriving DecidableEq

/-- A `telegram.User`, reduced to its id. -/
structure User where
  id : Int
  deriving DecidableEq

/-- A `telegram.Update`, reduced to the fields `from_update` reads:
`effective_chat` and `effective_user` (each possibly `None`). -/
structure Update where
  effective_chat : Option Chat
  effective_user : Option User
  deriving DecidableEq

/-- A `telegram.ext.Job`, reduced to the fields `from_job` reads: its optional
target `chat_id` and `user_id`. -/
structure Job where
  chat_id : Option Int
  user_id : Option Int
  deriving DecidableEq

/-- The per-category enable flags of `BasePersistence.store_data`
(a `PersistenceInput`). -/
structure PersistenceInput where
  bot_data : Bool
  chat_data : Bool
  user_data : Bool
  deriving DecidableEq

/-- The persistence backend, reduced to what `refresh_data` consults: its
`store_data` flags (the refresh hooks themselves are recorded as
`RefreshCall`s). -/
structure BasePersistence where
  store_data : PersistenceInput
  deriving DecidableEq

/-- The `telegram.ext.Application`, reduced to what `CallbackContext` reads:
the bot client, the shared `bot_data` store, the per-id `chat_data` and
`user_data` stores (create-if-absent `defaultdict`s, hence total functions),
and the optional persistence backend. -/
structure Application (BD CD UD : Type) where
  bot : Bot
  bot_data : BD
  chat_data : Int → CD
  user_data : Int → UD
  persistence : Option BasePersistence

/-- One invocation of a persistence refresh hook, as performed by
`refresh_data`. -/
inductive RefreshCall (BD CD UD : Type) where
  | refresh_bot_data (bot_data : BD)
  | refresh_chat_data (chat_id : Int) (chat_data : CD)
  | refresh_user_data (user_id : Int) (user_data : UD)
  deriving DecidableEq

/-- The `CallbackContext` object. Type parameters: `BD`, `CD`, `UD` are the
bot-, chat- and user-data types, `M` the regex-match type, `E` the error
(exception) type, `C` the coroutine-handle type, `D` the type of dynamic
attribute values stored in the instance `__dict__` (field `dyn`). -/
structure CallbackContext (BD CD UD M E C D : Type) where
  _application : Application BD CD UD
  _chat_id_and_data : Option (Int × CD)
  _user_id_and_data : Option (Int × UD)
  args : Option (List String)
  «matches» : Option (List M)
  error : Option E
  job : Option Job
  coroutine : Option C
  dyn : List (String × D)

namespace CallbackContext

variable {BD CD UD M E C D V : Type}

/-- `__init__`: stores the application and initializes every other slot to
`None` (and an empty `__dict__`). -/
def init (application : Application BD CD UD) : CallbackContext BD CD UD M E C D :=
  { _application := application
    _chat_id_and_data := none
    _user_id_and_data := none
    args := none
    «matches» := none
    error := none
    job := none
    coroutine := none
    dyn := [] }

/-- The `application` property. -/
def application (self : CallbackContext BD CD UD M E C D) : Application BD CD UD :=
  self._application

/-- The `bot` property: `self._application.bot`. -/
def bot (self : CallbackContext BD CD UD M E C D) : Bot :=
  self._application.bot

/-- The `bot_data` getter: `self.application.bot_data`. -/
def bot_data (self : CallbackContext BD CD UD M E C D) : BD :=
  self.application.bot_data

/-- The exact error the `bot_data` setter raises. -/
def bot_data_set_error : PTBError :=
  PTBError.invalidOperation
    ("You can not assign a new value to bot_data, see " ++ _STORING_DATA_WIKI)

/-- The `bot_data` setter: unconditionally raises, for any value. -/
def bot_data_setter (self : CallbackContext BD CD UD M E C D) (value : V) :
    Except PTBError Unit :=
  Except.error bot_data_set_error

/-- The `chat_data` getter: `self._chat_id_and_data[1]` when the (id, data)
pair is present (a 2-tuple is always truthy), else `None`. -/
def chat_data (self : CallbackContext BD CD UD M E C D) : Option CD :=
  match self._chat_id_and_data with
  | some p => some p.2
  | none => none

/-- The exact error the `chat_data` setter raises. -/
def chat_data_set_error : PTBError :=
  PTBError.invalidOperation
    ("You can not assign a new value to chat_data, see " ++ _STORING_DATA_WIKI)

/-- The `chat_data` setter: unconditionally raises, for any value. -/
def chat_data_setter (self : CallbackContext BD CD UD M E C D) (value : V) :
    Except PTBError Unit :=
  Except.error chat_data_set_error

/-- The `user_data` getter: `self._user_id_and_data[1]` when the (id, data)
pair is present, else `None`. -/
def user_data (self : CallbackContext BD CD UD M E C D) : Option UD :=
  match self._user_id_and_data with
  | some p => some p.2
  | none => none

/-- The exact error the `user_data` setter raises. -/
def user_data_set_error : PTBError :=
  PTBError.invalidOperation
    ("You can not assign a new value to user_data, see " ++ _STORING_DATA_WIKI)

/-- The `user_data` setter: unconditionally raises, for any value. -/
def user_data_setter (self : CallbackContext BD CD UD M E C D) (value : V) :
    Except PTBError Unit :=
  Except.error user_data_set_error

/-- The `match` property: `self.«matches»[0]`, with `IndexError` (empty list)
and `TypeError` (`matches` is `None`) both converted to `None`. -/
def match_ (self : CallbackContext BD CD UD M E C D) : Option M :=
  match self.«matches» with
  | some ms => ms.head?
  | none => none

/-- `refresh_data`: the list of persistence refresh hooks invoked, in order.
If a persistence backend is attached: the bot-data hook when its bot-data flag
is set; the chat-data hook with the cached (chat id, chat data) when its
chat-data flag is set and `_chat_id_and_data is not None`; symmetrically the
user-data hook. -/
def refresh_data (self : CallbackContext BD CD UD M E C D) :
    List (RefreshCall BD CD UD) :=
  match self.application.persistence with
  | none => []
  | some persistence =>
    (if persistence.store_data.bot_data then
      [RefreshCall.refresh_bot_data self.bot_data]
    else []) ++
    (if persistence.store_data.chat_data then
      match self._chat_id_and_data with
      | some (chat_id, cd) => [RefreshCall.refresh_chat_data chat_id cd]
      | none => []
    else []) ++
    (if persistence.store_data.user_data then
      match self._user_id_and_data with
      | some (user_id, ud) => [RefreshCall.refresh_user_data user_id ud]
      | none => []
    else [])

/-- `drop_callback_data`: if the bot is an `ExtBot`, raise a capability error
(`RuntimeError`) unless `arbitrary_callback_data` is set, else delegate to the
cache's `drop_data`; a plain `telegram.Bot` raises the capability error
directly. On success the updated cache is returned (the Python method mutates
the cache in place and returns `None`). -/
def drop_callback_data (self : CallbackContext BD CD UD M E C D)
    (callback_query : CallbackQuery) : Except PTBError CallbackDataCache :=
  match self.bot with
  | Bot.extBot arbitrary_callback_data callback_data_cache =>
    if arbitrary_callback_data then
      callback_data_cache.drop_data callback_query
    else
      Except.error (PTBError.capabilityError
        "This telegram.ext.ExtBot instance does not use arbitrary callback data.")
  | Bot.bot =>
    Except.error (PTBError.capabilityError
      "telegram.Bot does not allow for arbitrary callback data.")

/-- `from_update`: starts from `__init__`; when the update is a real `Update`
(`update is not None and isinstance(update, Update)`, here: `some u`), caches
`(chat.id, application.chat_data[chat.id])` when the effective chat is
present, and `(user.id, application.user_data[user.id])` when the effective
user is present. -/
def from_update (update : Option Update) (application : Application BD CD UD) :
    CallbackContext BD CD UD M E C D :=
  let self : CallbackContext BD CD UD M E C D := init application
  match update with
  | none => self
  | some u =>
    let self :=
      match u.effective_chat with
      | some chat =>
        { self with _chat_id_and_data := some (chat.id, application.chat_data chat.id) }
      | none => self
    match u.effective_user with
    | some user =>
      { self with _user_id_and_data := some (user.id, application.user_data user.id) }
    | none => self

/-- `from_job`: starts from `__init__`, sets `self.job`; then caches the chat
(id, data) pair when `job.chat_id` is *truthy* (non-`None` and nonzero), and
likewise the user pair when `job.user_id` is truthy. -/
def from_job (job : Job) (application : Application BD CD UD) :
    CallbackContext BD CD UD M E C D :=
  let self : CallbackContext BD CD UD M E C D := { init application with job := some job }
  let self :=
    match job.chat_id with
    | some cid =>
      if cid != 0 then
        { self with _chat_id_and_data := some (cid, application.chat_data cid) }
      else self
    | none => self
  match job.user_id with
  | some uid =>
    if uid != 0 then
      { self with _user_id_and_data := some (uid, application.user_data uid) }
    else self
  | none => self

/-- `from_error`: builds the context via `from_update` on the error's update,
then sets `self.error`, `self.coroutine` and `self.job` (the latter two
defaulting to `None` in Python, hence `Option` arguments here). -/
def from_error (update : Option Update) (error : E)
    (application : Application BD CD UD) (job : Option Job) (coroutine : Option C) :
    CallbackContext BD CD UD M E C D :=
  let self : CallbackContext BD CD UD M E C D := from_update update application
  { self with error := some error, coroutine := coroutine, job := job }

/-- One Python attribute assignment `setattr(self, name, value)`, dispatched
by attribute name: the writable slots, the three read-only data properties,
and a dynamic name landing in the instance `__dict__`. -/
inductive Attr (BD CD UD M E C D : Type) where
  | args (value : Option (List String))
  | «matches» (value : Option (List M))
  | error (value : Option E)
  | job (value : Option Job)
  | coroutine (value : Option C)
  | bot_data (value : D)
  | chat_data (value : D)
  | user_data (value : D)
  | dyn (name : String) (value : D)

/-- `setattr(self, key, value)`: slot attributes are overwritten; the names
`bot_data`, `chat_data`, `user_data` hit the property setters, which raise;
an unknown name creates/overwrites an entry of the instance `__dict__`. -/
def setattr (self : CallbackContext BD CD UD M E C D) :
    Attr BD CD UD M E C D → Except PTBError (CallbackContext BD CD UD M E C D)
  | Attr.args v => Except.ok { self with args := v }
  | Attr.«matches» v => Except.ok { self with «matches» := v }
  | Attr.error v => Except.ok { self with error := v }
  | Attr.job v => Except.ok { self with job := v }
  | Attr.coroutine v => Except.ok { self with coroutine := v }
  | Attr.bot_data _ => Except.error bot_data_set_error
  | Attr.chat_data _ => Except.error chat_data_set_error
  | Attr.user_data _ => Except.error user_data_set_error
  | Attr.dyn name v => Except.ok { self with dyn := setAssoc self.dyn name v }

/-- `update(data)`: iterates the mapping's entries in order, applying
`setattr` to each; a raise propagates immediately, keeping the mutations the
earlier entries already made (the Python object is mutated in place). -/
def update :
    CallbackContext BD CD UD M E C D → List (Attr BD CD UD M E C D) →
    CallbackContext BD CD UD M E C D × Option PTBError
  | self, [] => (self, none)
  | self, a :: rest =>
    match setattr self a with
    | Except.ok self2 => update self2 rest
    | Except.error e => (self, some e)

end CallbackContext

/-! Concrete sample data, used to evaluate the theorems on closed inputs. -/

/-- A sample application over `Nat`-valued stores, with a plain bot. -/
def appNat : Application Nat Nat Nat :=
  { bot := Bot.bot
    bot_data := 0
    chat_data := fun i => i.toNat + 1
    user_data := fun i => i.toNat + 2
    persistence := none }

/-- A freshly initialized sample context. -/
def ctxNat : CallbackContext Nat Nat Nat Nat Nat Nat Nat :=
  CallbackContext.init appNat

/-- A sample cache holding one cached keyboard behind one callback query. -/
def cacheX : CallbackDataCache :=
  { callback_queries := [("q1", "kb1")]
    keyboard_data := [("kb1", "payload")] }

/-- A sample application whose bot is an `ExtBot` with arbitrary callback data
enabled and cache `cacheX`. -/
def appExt : Application Nat Nat Nat :=
  { bot := Bot.extBot true cacheX
    bot_data := 0
    chat_data := fun _ => 0
    user_data := fun _ => 0
    persistence := none }

/-- A context over `appExt`. -/
def ctxExt : CallbackContext Nat Nat Nat Nat Nat Nat Nat :=
  CallbackContext.init appExt

/-- A sample context whose `matches` list is `[5, 7]`. -/
def ctxMatches : CallbackContext Nat Nat Nat Nat Nat Nat Nat :=
  { ctxNat with «matches» := some [5, 7] }

/-- A sample update with effective chat id 5 and effective user id 9. -/
def updX : Update :=
  { effective_chat := some { id := 5 }, effective_user := some { id := 9 } }

/-- A job targeting chat id 0 and no user. -/
def job0 : Job := { chat_id := some 0, user_id := none }

/-- A job targeting chat id 5 and no user. -/
def job5 : Job := { chat_id := some 5, user_id := none }

/-! Helper lemmas about the association-list model. -/

/-- After removing a key, looking it up yields nothing. -/
theorem lookupAssoc_removeAssoc {α : Type} (l : List (String × α)) (k : String) :
    lookupAssoc (removeAssoc l k) k = none := by
  induction l with
  | nil => rfl
  | cons p rest ih =>
    obtain ⟨k', v'⟩ := p
    by_cases h : k' = k <;> simp [removeAssoc, lookupAssoc, h, ih]

/-! Claim theorems. -/

/-- Claim C1: For every context and every value, assigning to the `bot_data`,
`chat_data` or `user_data` accessor fails with an `InvalidOperation` error
(the Python `AttributeError` raised by the property setter), regardless of the
context's prior state. -/
theorem C1_data_setters_always_fail {BD CD UD M E C D V : Type}
    (self : CallbackContext BD CD UD M E C D) (value : V) :
    (∃ msg, self.bot_data_setter value = Except.error (PTBError.invalidOperation msg))
    ∧ (∃ msg, self.chat_data_setter value = Except.error (PTBError.invalidOperation msg))
    ∧ (∃ msg, self.user_data_setter value = Except.error (PTBError.invalidOperation msg)) :=
  ⟨⟨_, rfl⟩, ⟨_, rfl⟩, ⟨_, rfl⟩⟩

/-- Claim C3: reading `match` returns absent when `matches` is absent, absent when
`matches` is an empty sequence, and the first element when non-empty; the
accessor never raises. -/
theorem C3_match_first_or_none {BD CD UD M E C D : Type}
    (self : CallbackContext BD CD UD M E C D) :
    (self.«matches» = none → self.match_ = none)
    ∧ (self.«matches» = some [] → self.match_ = none)
    ∧ (∀ m ms, self.«matches» = some (m :: ms) → self.match_ = some m) := by
  refine ⟨fun h => ?_, fun h => ?_, fun m ms h => ?_⟩ <;>
    simp [CallbackContext.match_, h]

/-- Witness for claim C3: on a concrete context with matches `[5, 7]`, the `match`
accessor returns `5`. -/
theorem C3_match_first_or_none_witness :
    ctxMatches.«matches» = some [5, 7] ∧ ctxMatches.match_ = some 5 :=
  ⟨rfl, (C3_match_first_or_none ctxMatches).2.2 5 [7] rfl⟩

/-- Claim C7: `from_error` produces exactly the context `from_update` produces on
the error's update, with additionally `error` set, `job` set from the given
job reference, and `coroutine` set from the given handle; every other field
is equal. -/
theorem C7_from_error_delegates {BD CD UD M E C D : Type}
    (update : Option Update) (error : E) (application : Application BD CD UD)
    (job : Option Job) (coroutine : Option C) :
    let fe : CallbackContext BD CD UD M E C D :=
      CallbackContext.from_error update error application job coroutine
    let fu : CallbackContext BD CD UD M E C D :=
      CallbackContext.from_update update application
    fe._application = fu._application
    ∧ fe._chat_id_and_data = fu._chat_id_and_data
    ∧ fe._user_id_and_data = fu._user_id_and_data
    ∧ fe.args = fu.args
    ∧ fe.«matches» = fu.«matches»
    ∧ fe.dyn = fu.dyn
    ∧ fe.error = some error
    ∧ fe.job = job
    ∧ fe.coroutine = coroutine :=
  ⟨rfl, rfl, rfl, rfl, rfl, rfl, rfl, rfl, rfl⟩

/-- Claim C9: updating a context with a mapping that assigns the `matches` field to
the one-element list `[m]` succeeds, and reading `match` afterwards returns
`m`. -/
theorem C9_update_matches_then_match {BD CD UD M E C D : Type}
    (self : CallbackContext BD CD UD M E C D) (m : M) :
    (CallbackContext.update self [CallbackContext.Attr.«matches» (some [m])]).2 = none
    ∧ (CallbackContext.update self
        [CallbackContext.Attr.«matches» (some [m])]).1.match_ = some m :=
  ⟨rfl, rfl⟩

/-- Claim C10: `from_job` treats a job chat id of `0` (resp. user id `0`) like an
absent id — the presence test is Python truthiness of the id — so the
corresponding `chat_data` (resp. `user_data`) stays absent. -/
theorem C10_zero_id_like_absent {BD CD UD M E C D : Type}
    (application : Application BD CD UD) (uid cid : Option Int) :
    (CallbackContext.from_job { chat_id := some 0, user_id := uid } application :
      CallbackContext BD CD UD M E C D).chat_data = none
    ∧ (CallbackContext.from_job { chat_id := cid, user_id := some 0 } application :
      CallbackContext BD CD UD M E C D).user_data = none := by
  constructor
  · cases uid with
    | none => rfl
    | some u =>
      by_cases h : u = 0 <;>
        simp [CallbackContext.from_job, CallbackContext.chat_data,
          CallbackContext.init, h]
  · cases cid with
    | none => rfl
    | some c =>
      by_cases h : c = 0 <;>
        simp [CallbackContext.from_job, CallbackContext.user_data,
          CallbackContext.init, h]

/-- Claim C4: constructing via `from_update` and reading `chat_data` / `user_data`
returns the same handle as directly looking up the effective chat id /
user id in the Application's stores at construction time; for an update
lacking an effective chat, `chat_data` is absent. -/
theorem C4_from_update_handles {BD CD UD M E C D : Type}
    (u : Update) (application : Application BD CD UD) :
    (∀ chat, u.effective_chat = some chat →
      (CallbackContext.from_update (some u) application :
        CallbackContext BD CD UD M E C D).chat_data
        = some (application.chat_data chat.id))
    ∧ (∀ user, u.effective_user = some user →
      (CallbackContext.from_update (some u) application :
        CallbackContext BD CD UD M E C D).user_data
        = some (application.user_data user.id))
    ∧ (u.effective_chat = none →
      (CallbackContext.from_update (some u) application :
        CallbackContext BD CD UD M E C D).chat_data = none) := by
  refine ⟨fun chat h => ?_, fun user h => ?_, fun h => ?_⟩
  · cases hu : u.effective_user <;>
      simp [CallbackContext.from_update, CallbackContext.chat_data,
        CallbackContext.init, h, hu]
  · cases hc : u.effective_chat <;>
      simp [CallbackContext.from_update, CallbackContext.user_data,
        CallbackContext.init, h, hc]
  · cases hu : u.effective_user <;>
      simp [CallbackContext.from_update, CallbackContext.chat_data,
        CallbackContext.init, h, hu]

/-- Witness for claim C4: on an update with chat id 5 and user id 9 over `appNat`,
both data handles equal the store lookups. -/
theorem C4_from_update_handles_witness :
    updX.effective_chat = some { id := 5 }
    ∧ updX.effective_user = some { id := 9 }
    ∧ (CallbackContext.from_update (some updX) appNat :
        CallbackContext Nat Nat Nat Nat Nat Nat Nat).chat_data
        = some (appNat.chat_data 5)
    ∧ (CallbackContext.from_update (some updX) appNat :
        CallbackContext Nat Nat Nat Nat Nat Nat Nat).user_data
        = some (appNat.user_data 9) :=
  ⟨rfl, rfl,
    (C4_from_update_handles updX appNat).1 { id := 5 } rfl,
    (C4_from_update_handles updX appNat).2.1 { id := 9 } rfl⟩

set_option maxRecDepth 4000 in
/-- Claim C5: `refresh_data` performs the bot-data hook (with the current bot data)
exactly when a persistence backend is attached and its bot-data flag is set;
the chat-data hook with the cached `(chat id, chat data)` exactly when
additionally a chat was resolved at construction; symmetrically the user-data
hook; every other combination silently skips the hook. -/
theorem C5_refresh_data_exact {BD CD UD M E C D : Type}
    (self : CallbackContext BD CD UD M E C D) :
    (∀ bd, RefreshCall.refresh_bot_data bd ∈ self.refresh_data ↔
      (bd = self.bot_data
        ∧ ∃ p, self._application.persistence = some p ∧ p.store_data.bot_data = true))
    ∧ (∀ cid cd, RefreshCall.refresh_chat_data cid cd ∈ self.refresh_data ↔
      ((∃ p, self._application.persistence = some p ∧ p.store_data.chat_data = true)
        ∧ self._chat_id_and_data = some (cid, cd)))
    ∧ (∀ uid ud, RefreshCall.refresh_user_data uid ud ∈ self.refresh_data ↔
      ((∃ p, self._application.persistence = some p ∧ p.store_data.user_data = true)
        ∧ self._user_id_and_data = some (uid, ud))) := by
  rcases hp : self._application.persistence with _ | p
  · have hrw : self.refresh_data = [] := by
      unfold CallbackContext.refresh_data CallbackContext.application
      rw [hp]
    simp [hrw, hp]
  · have hrw : self.refresh_data =
        (if p.store_data.bot_data then
          [RefreshCall.refresh_bot_data self.bot_data]
        else []) ++
        (if p.store_data.chat_data then
          match self._chat_id_and_data with
          | some (chat_id, cd) => [RefreshCall.refresh_chat_data chat_id cd]
          | none => []
        else []) ++
        (if p.store_data.user_data then
          match self._user_id_and_data with
          | some (user_id, ud) => [RefreshCall.refresh_user_data user_id ud]
          | none => []
        else []) := by
      unfold CallbackContext.refresh_data CallbackContext.application
      rw [hp]
    obtain ⟨⟨b, c, u⟩⟩ := p
    rcases hc : self._chat_id_and_data with _ | ⟨cid', cd'⟩ <;>
      rcases hu : self._user_id_and_data with _ | ⟨uid', ud'⟩ <;>
        cases b <;> cases c <;> cases u <;>
          simp only [hrw, hc, hu] <;>
            simp [hp] <;>
              (try constructor) <;>
                (try exact fun a b =>
                  ⟨fun hpair => ⟨hpair.1.symm, hpair.2.symm⟩,
                   fun hpair => ⟨hpair.1.symm, hpair.2.symm⟩⟩)

/-- Claim C2: `drop_callback_data` fails with a `CapabilityError` on a plain bot,
fails with a `CapabilityError` on an `ExtBot` with arbitrary callback data
disabled, fails with a `NotFoundError` when the query token is absent from
the cache's query index, and on success removes the cached entry (the query
index no longer resolves the token). -/
theorem C2_drop_callback_data_cases {BD CD UD M E C D : Type}
    (self : CallbackContext BD CD UD M E C D) (callback_query : CallbackQuery) :
    (self.bot = Bot.bot →
      self.drop_callback_data callback_query
        = Except.error (PTBError.capabilityError
            "telegram.Bot does not allow for arbitrary callback data."))
    ∧ (∀ cache, self.bot = Bot.extBot false cache →
      self.drop_callback_data callback_query
        = Except.error (PTBError.capabilityError
            "This telegram.ext.ExtBot instance does not use arbitrary callback data."))
    ∧ (∀ cache, self.bot = Bot.extBot true cache →
      lookupAssoc cache.callback_queries callback_query.id = none →
      self.drop_callback_data callback_query
        = Except.error (PTBError.notFoundError
            "CallbackQuery was not found in cache."))
    ∧ (∀ cache keyboard_uuid, self.bot = Bot.extBot true cache →
      lookupAssoc cache.callback_queries callback_query.id = some keyboard_uuid →
      self.drop_callback_data callback_query = Except.ok
        { callback_queries := removeAssoc cache.callback_queries callback_query.id
          keyboard_data := removeAssoc cache.keyboard_data keyboard_uuid }
      ∧ ∀ cache2, self.drop_callback_data callback_query = Except.ok cache2 →
        lookupAssoc cache2.callback_queries callback_query.id = none) := by
  refine ⟨fun h => ?_, fun cache h => ?_, fun cache h hq => ?_,
    fun cache keyboard_uuid h hq => ?_⟩
  · simp [CallbackContext.drop_callback_data, h]
  · simp [CallbackContext.drop_callback_data, h]
  · simp [CallbackContext.drop_callback_data, CallbackDataCache.drop_data, h, hq]
  · constructor
    · simp [CallbackContext.drop_callback_data, CallbackDataCache.drop_data, h, hq]
    · intro cache2 h2
      have hs : self.drop_callback_data callback_query = Except.ok
          { callback_queries := removeAssoc cache.callback_queries callback_query.id
            keyboard_data := removeAssoc cache.keyboard_data keyboard_uuid } := by
        simp [CallbackContext.drop_callback_data, CallbackDataCache.drop_data, h, hq]
      rw [hs] at h2
      cases h2
      exact lookupAssoc_removeAssoc _ _

/-- Witness for claim C2: on `ctxExt` (arbitrary callback data enabled, cache
`cacheX`) dropping callback query `q1` succeeds and empties both indexes. -/
theorem C2_drop_callback_data_cases_witness :
    ctxExt.bot = Bot.extBot true cacheX
    ∧ lookupAssoc cacheX.callback_queries "q1" = some "kb1"
    ∧ ctxExt.drop_callback_data { id := "q1" } = Except.ok
        { callback_queries := removeAssoc cacheX.callback_queries "q1"
          keyboard_data := removeAssoc cacheX.keyboard_data "kb1" } :=
  ⟨rfl, by decide,
    ((C2_drop_callback_data_cases ctxExt { id := "q1" }).2.2.2 cacheX "kb1"
      rfl (by decide)).1⟩

/-- Claim C6 counterexample: the job `job0` has a non-null chat id (`0`) and a null
user id, yet `from_job` leaves `chat_data` absent rather than populating it
with the store's handle for chat id `0`. -/
theorem C6_from_job_chat_zero_counterexample :
    job0.chat_id = some 0
    ∧ job0.user_id = none
    ∧ (CallbackContext.from_job job0 appNat :
        CallbackContext Nat Nat Nat Nat Nat Nat Nat).chat_data = none
    ∧ some (appNat.chat_data 0) ≠ (none : Option Nat) :=
  ⟨rfl, rfl, rfl, by decide⟩

/-- Claim C6 (amended): constructing via `from_job` from a job with a non-null
*and nonzero* chat id and a null user id populates `chat_data` with the
Application store's handle for that chat id and leaves `user_data` absent
(the presence test is truthiness of the id, so a chat id of 0 is treated as
absent). -/
theorem C6_from_job_chat_only {BD CD UD M E C D : Type}
    (job : Job) (application : Application BD CD UD) (cid : Int)
    (hchat : job.chat_id = some cid) (hcid : cid ≠ 0) (huser : job.user_id = none) :
    (CallbackContext.from_job job application :
      CallbackContext BD CD UD M E C D).chat_data = some (application.chat_data cid)
    ∧ (CallbackContext.from_job job application :
      CallbackContext BD CD UD M E C D).user_data = none := by
  constructor <;>
    simp [CallbackContext.from_job, CallbackContext.chat_data,
      CallbackContext.user_data, CallbackContext.init, hchat, huser, hcid]

/-- Witness for claim C6 (amended): the job with chat id 5 and no user id, over
`appNat`. -/
theorem C6_from_job_chat_only_witness :
    job5.chat_id = some 5 ∧ (5 : Int) ≠ 0 ∧ job5.user_id = none
    ∧ (CallbackContext.from_job job5 appNat :
        CallbackContext Nat Nat Nat Nat Nat Nat Nat).chat_data
        = some (appNat.chat_data 5)
    ∧ (CallbackContext.from_job job5 appNat :
        CallbackContext Nat Nat Nat Nat Nat Nat Nat).user_data = none :=
  ⟨rfl, by decide, rfl,
    (C6_from_job_chat_only job5 appNat 5 rfl (by decide) rfl).1,
    (C6_from_job_chat_only job5 appNat 5 rfl (by decide) rfl).2⟩

/-- Claim C8 counterexample: a mapping containing the key `bot_data` is not applied
onto the context — the property setter raises (Python `AttributeError`, the
spec's `InvalidOperation`) and the field keeps its old value. -/
theorem C8_update_bot_data_counterexample :
    (CallbackContext.update ctxNat [CallbackContext.Attr.bot_data 2]).2
      = some CallbackContext.bot_data_set_error
    ∧ PTBError.isInvalidOperation CallbackContext.bot_data_set_error = true
    ∧ (CallbackContext.update ctxNat [CallbackContext.Attr.bot_data 2]).1.bot_data
      = ctxNat.bot_data :=
  ⟨rfl, rfl, rfl⟩

/-- Claim C8 (amended): `update` applies the mapping entry by entry — entries
naming a writable slot (`args`, `matches`, `error`, `job`, `coroutine`)
overwrite that field, entries with an unknown name create or overwrite a
dynamic attribute, but entries naming the read-only accessors `bot_data`,
`chat_data` or `user_data` raise an `InvalidOperation` error and leave the
context unchanged. -/
theorem C8_update_field_by_field {BD CD UD M E C D : Type}
    (self : CallbackContext BD CD UD M E C D) :
    (∀ v, CallbackContext.update self [CallbackContext.Attr.args v]
      = ({ self with args := v }, none))
    ∧ (∀ v, CallbackContext.update self [CallbackContext.Attr.«matches» v]
      = ({ self with «matches» := v }, none))
    ∧ (∀ v, CallbackContext.update self [CallbackContext.Attr.error v]
      = ({ self with error := v }, none))
    ∧ (∀ v, CallbackContext.update self [CallbackContext.Attr.job v]
      = ({ self with job := v }, none))
    ∧ (∀ v, CallbackContext.update self [CallbackContext.Attr.coroutine v]
      = ({ self with coroutine := v }, none))
    ∧ (∀ name v, CallbackContext.update self [CallbackContext.Attr.dyn name v]
      = ({ self with dyn := setAssoc self.dyn name v }, none))
    ∧ (∀ v, CallbackContext.update self [CallbackContext.Attr.bot_data v]
      = (self, some CallbackContext.bot_data_set_error))
    ∧ (∀ v, CallbackContext.update self [CallbackContext.Attr.chat_data v]
      = (self, some CallbackContext.chat_data_set_error))
    ∧ (∀ v, CallbackContext.update self [CallbackContext.Attr.user_data v]
      = (self, some CallbackContext.user_data_set_error)) :=
  ⟨fun _ => rfl, fun _ => rfl, fun _ => rfl, fun _ => rfl, fun _ => rfl,
    fun _ _ => rfl, fun _ => rfl, fun _ => rfl, fun _ => rfl⟩

end PTB
